import Mathlib

/-!
# ubik.cpp: call-sequence model of the top-level orchestration

Shallow embedding of `src/ubik/ubik.cpp`.  Every function of the file is a
Lean function that threads an explicit state `St` holding the ordered list of
calls made to collaborators (`trace`) and the per-collaborator call counters.
Values returned by collaborators that are not part of the file (the selector,
the button wait, `Maze::go_to`, `xTaskCreate`) come from an oracle `Env`,
indexed by the number of earlier calls to the same collaborator, so a theorem
quantified over `Env` covers every sequence of returned values.

C++ `int` is embedded as `Int`; all arithmetic of the file (`2 * 16`,
`maze_size * maze_size`, `maze_size / 2`, `maze_size - 1`) stays far below
`2^31` whenever the selected size lies in `1..16`, and the lock theorems do not
depend on the numeric values at all.
-/

namespace Ubik

/-! ## Data carried by the calls -/

/-- Tick arguments as they are written in the source. -/
inductive Ticks where
  | ticks (n : Nat)
  | pdMS_TO_TICKS (ms : Nat)
  | portMAX_DELAY
  deriving DecidableEq, Repr

/-- The argument object `maze::TargetPosition(a, b)`: the two constructor arguments. -/
structure TargetPosition where
  x : Int
  y : Int
  deriving DecidableEq, Repr

/-- What `maze.go_to` is called with: a freshly built target or `maze::START_POSITION`. -/
inductive Destination where
  | target (p : TargetPosition)
  | START_POSITION
  deriving DecidableEq, Repr

/-- The motion primitives built by `main_task`, with their constructor arguments in source order. -/
inductive Segment where
  | Line (distance max_velocity acceleration final_velocity : ℚ)
  | Rotate (angle max_velocity acceleration final_velocity : ℚ)
  | Arc (radius angle max_velocity acceleration final_velocity : ℚ)
  deriving DecidableEq, Repr

/-- Task entry points named in `run`. -/
inductive TaskFn where
  | system_monitor_task
  | regulation_task
  | controller_task
  | main_task
  deriving DecidableEq, Repr

/-- The arguments of one `create_task(name, priority, func, stack_size, param)` call;
`stack_mult` is the factor applied to `configMINIMAL_STACK_SIZE`. -/
structure TaskParams where
  name : String
  priority : Nat
  func : TaskFn
  stack_mult : Nat
  deriving DecidableEq, Repr

/-- Modules initialised at the top of `run`, in source order. -/
inductive Module where
  | spi
  | distance_sensors
  | system_monitor
  | odometry
  | motors
  | regulator
  deriving DecidableEq, Repr

/-- One call made by the code of `ubik.cpp` to a collaborator, with the value it returned. -/
inductive Call where
  | vTaskDelay (t : Ticks)
  | lock_button
  | unlock_button
  | wait_for_button_press (t : Ticks) (ret : Bool)
  | select_with_wheels_int (dflt lo hi steps : Int) (prompt : String) (ret : Int)
  | distance_sensors_read
  | printf (size : Nat)
  | printf_blocking (size : Nat)
  | update_pins (set_led_blue reset_led_blue : Bool)
  | set_current_position
  | go_to (dest : Destination) (ret : Bool)
  | move (seg : Segment)
  | initialise (m : Module)
  | xTaskCreate (p : TaskParams) (ret : Int)
  | configASSERT (cond : Bool)
  | xPortGetFreeHeapSize
  | vTaskStartScheduler
  deriving DecidableEq, Repr

/-- Values returned by the collaborators; the first argument is the number of
earlier calls to the same collaborator. -/
structure Env where
  select_with_wheels_int : Nat → Int → Int × Int → Int → String → Int
  wait_for_button_press : Nat → Ticks → Bool
  go_to : Nat → Destination → Bool
  xTaskCreate : Nat → TaskParams → Int
  scheduler_returns : Bool

/-- Execution state: calls made so far and the per-collaborator call counters. -/
structure St where
  trace : List Call
  n_select : Nat
  n_wait : Nat
  n_go_to : Nat
  n_create : Nat

/-- The state before anything ran. -/
def St.init : St := ⟨[], 0, 0, 0, 0⟩

/-- Record a call that returns nothing the code looks at. -/
def St.emit (s : St) (c : Call) : St := { s with trace := s.trace ++ [c] }

/-! ## Collaborator calls -/

def vTaskDelay (t : Ticks) (s : St) : St := s.emit (.vTaskDelay t)

def lock_button (s : St) : St := s.emit .lock_button

def unlock_button (s : St) : St := s.emit .unlock_button

def printf (size : Nat) (s : St) : St := s.emit (.printf size)

def printf_blocking (size : Nat) (s : St) : St := s.emit (.printf_blocking size)

def distance_sensors_read (s : St) : St := s.emit .distance_sensors_read

/-- The call `spi::gpio::update_pins(a, b)`; each flag says whether `LED_BLUE` is in the
corresponding argument (the other value used is 0). -/
def update_pins (set_led_blue reset_led_blue : Bool) (s : St) : St :=
  s.emit (.update_pins set_led_blue reset_led_blue)

def set_current_position (s : St) : St := s.emit .set_current_position

def move (seg : Segment) (s : St) : St := s.emit (.move seg)

def initialise (m : Module) (s : St) : St := s.emit (.initialise m)

def wait_for_button_press (env : Env) (t : Ticks) (s : St) : Bool × St :=
  let r := env.wait_for_button_press s.n_wait t
  (r, { s with trace := s.trace ++ [.wait_for_button_press t r], n_wait := s.n_wait + 1 })

def select_with_wheels_int (env : Env) (dflt : Int) (range : Int × Int) (steps : Int)
    (prompt : String) (s : St) : Int × St :=
  let r := env.select_with_wheels_int s.n_select dflt range steps prompt
  (r, { s with
          trace := s.trace ++ [.select_with_wheels_int dflt range.1 range.2 steps prompt r],
          n_select := s.n_select + 1 })

def go_to (env : Env) (dest : Destination) (s : St) : Bool × St :=
  let r := env.go_to s.n_go_to dest
  (r, { s with trace := s.trace ++ [.go_to dest r], n_go_to := s.n_go_to + 1 })

/-! ## show_distance_sensors_until_button (lines 44-57) -/

/-- The `while (! wait_for_button_press(pdMS_TO_TICKS(100)))` loop.  The Boolean
is `true` when the loop was left, `false` when `fuel` polls were not enough. -/
def show_distance_sensors_loop (env : Env) : Nat → St → St × Bool
  | 0, s => (s, false)
  | fuel + 1, s =>
    let (pressed, s1) := wait_for_button_press env (.pdMS_TO_TICKS 100) s
    if !pressed then
      let s2 := distance_sensors_read s1
      let s3 := printf 100 s2
      show_distance_sensors_loop env fuel s3
    else
      (s1, true)

/-- The whole function; the Boolean tells whether it returned within `fuel` polls. -/
def show_distance_sensors_until_button (env : Env) (fuel : Nat) (s : St) : St × Bool :=
  let s1 := lock_button s
  let (s2, left) := show_distance_sensors_loop env fuel s1
  if left then (unlock_button s2, true) else (s2, false)

/-! ## maze_solver (lines 59-106) -/

/-- The constant `constexpr int MAX_MAZE_SIZE = 16`. -/
def MAX_MAZE_SIZE : Int := 16

/-- Modelled from the spec: the class template `StaticStack<T, N>` is declared outside
`ubik.cpp`; it is the fixed-capacity worklist "sized at construction/compile time", so
its capacity is its second template argument. -/
structure StaticStack where
  capacity : Int
  deriving DecidableEq, Repr

/-- The arguments of `maze::Maze maze(maze_size, maze_size, cells, maze_stack, START_POSITION)`:
the two grid dimensions, the length of the `cells` array and the stack. -/
structure Maze where
  n_x : Int
  n_y : Int
  n_cells : Int
  stack : StaticStack
  deriving DecidableEq, Repr

/-- Lines 63-75: everything before the `while (1)` loop. -/
def maze_solver_setup (env : Env) (s : St) : Int × Maze × St :=
  let s1 := vTaskDelay (.ticks 10) s
  let s2 := lock_button s1
  let (maze_size, s3) :=
    select_with_wheels_int env 4 (1, MAX_MAZE_SIZE) (2 * MAX_MAZE_SIZE) "[maze] select size =" s2
  let n_cells := maze_size * maze_size
  let maze_stack : StaticStack := ⟨MAX_MAZE_SIZE * MAX_MAZE_SIZE⟩
  let maze : Maze := ⟨maze_size, maze_size, n_cells, maze_stack⟩
  let s4 := printf 80 s3
  let s5 := unlock_button s4
  (maze_size, maze, s5)

/-- The two selector calls that are the arguments of `maze::TargetPosition(...)`
(lines 81-84).  C++ leaves the evaluation order of function arguments open, so the
order is a parameter: `x_first = true` evaluates the `target.x` prompt first. -/
def select_goal (env : Env) (x_first : Bool) (maze_size : Int) (s : St) : TargetPosition × St :=
  if x_first then
    let (gx, s1) := select_with_wheels_int env (Int.tdiv maze_size 2) (0, maze_size - 1)
      (2 * maze_size) "[maze] target.x =" s
    let (gy, s2) := select_with_wheels_int env (Int.tdiv maze_size 2) (0, maze_size - 1)
      (2 * maze_size) "[maze] target.y =" s1
    (⟨gx, gy⟩, s2)
  else
    let (gy, s1) := select_with_wheels_int env (Int.tdiv maze_size 2) (0, maze_size - 1)
      (2 * maze_size) "[maze] target.y =" s
    let (gx, s2) := select_with_wheels_int env (Int.tdiv maze_size 2) (0, maze_size - 1)
      (2 * maze_size) "[maze] target.x =" s1
    (⟨gx, gy⟩, s2)

/-- One pass through the body of `while (1)` (lines 78-104).  Returns `goal_pos`, the
final value of `success`, and the state. -/
def maze_solver_iteration (env : Env) (x_first : Bool) (maze_size : Int) (s : St) :
    TargetPosition × Bool × St :=
  let s1 := lock_button s
  let s2 := update_pins true false s1
  let (goal_pos, s3) := select_goal env x_first maze_size s2
  let s4 := printf 100 s3
  let s5 := update_pins false true s4
  let (_, s6) := wait_for_button_press env .portMAX_DELAY s5
  let s7 := unlock_button s6
  let s8 := set_current_position s7
  let s9 := vTaskDelay (.pdMS_TO_TICKS 2000) s8
  let (success, s10) := go_to env (.target goal_pos) s9
  let s11 := printf 100 s10
  let s12 := printf 100 s11
  let (success2, s13) := if success then go_to env .START_POSITION s12 else (success, s12)
  let s14 := printf 100 s13
  (goal_pos, success2, s14)

/-- The first `n` passes through `while (1)`; `order i` is the argument evaluation
order taken in pass `i`. -/
def maze_solver_loop (env : Env) (order : Nat → Bool) (maze_size : Int) : Nat → St → St
  | 0, s => s
  | n + 1, s =>
    let s1 := maze_solver_loop env order maze_size n s
    (maze_solver_iteration env (order n) maze_size s1).2.2

/-- The function up to the end of its `n`-th loop pass (the loop never exits). -/
def maze_solver (env : Env) (order : Nat → Bool) (n : Nat) (s : St) : St :=
  let (maze_size, _, s1) := maze_solver_setup env s
  maze_solver_loop env order maze_size n s1

/-! ## main_task (lines 108-140) -/

/-- The trailing `while(1) vTaskDelay(portMAX_DELAY)`, cut after `n` passes. -/
def main_task_idle : Nat → St → St
  | 0, s => s
  | n + 1, s => vTaskDelay .portMAX_DELAY (main_task_idle n s)

/-- The value of the C++ literal `0.3`: a `double`, the binary64 number nearest to 3/10. -/
def literal_0_3 : ℚ := 5404319552844595 / 2 ^ 54

/-- The value of the C++ literal `0.1`: a `double`, the binary64 number nearest to 1/10. -/
def literal_0_1 : ℚ := 3602879701896397 / 2 ^ 55

/-- The task body; `PI` is the constant of that name from a header outside the file.
The numeric arguments are the values of the literals as written (`0.5` and `0` are exact
in binary); a later conversion to the parameter types of the constructors, which are
declared outside the file, is not modelled. -/
def main_task (PI : ℚ) (env : Env) (n : Nat) (s : St) : St :=
  let s1 := vTaskDelay (.ticks 300) s
  let s2 := printf 20 s1
  let s3 := lock_button s2
  let (_, s4) := wait_for_button_press env .portMAX_DELAY s3
  let s5 := unlock_button s4
  let s6 := move (.Line (1/2) literal_0_3 literal_0_1 0) s5
  let s7 := move (.Rotate PI PI PI 0) s6
  let s8 := move (.Line (1/2) literal_0_3 literal_0_1 0) s7
  let s9 := move (.Arc (1/2) PI literal_0_3 literal_0_1 0) s8
  main_task_idle n s9

/-! ## run (lines 143-212) -/

def xTaskCreate (env : Env) (p : TaskParams) (s : St) : Int × St :=
  let r := env.xTaskCreate s.n_create p
  (r, { s with trace := s.trace ++ [.xTaskCreate p r], n_create := s.n_create + 1 })

/-- The lambda `create_task` of lines 166-171, with the captured `all_created` passed
through explicitly: the task is created first, then the flag is updated. -/
def create_task (env : Env) (pdPASS : Int) (name : String) (priority : Nat) (func : TaskFn)
    (stack_mult : Nat) (acc : Bool × St) : Bool × St :=
  let (result, s1) := xTaskCreate env ⟨name, priority, func, stack_mult⟩ acc.2
  (acc.1 && decide (result = pdPASS), s1)

/-- Modelled from the spec: the macro `configASSERT` comes from the RTOS configuration
header, which is outside `ubik.cpp`; task-creation failures "halt the system (equivalent
to a fail-fast assertion)", so execution goes on past the call exactly when the
condition is true.  The Boolean returned says whether execution goes on. -/
def configASSERT (cond : Bool) (s : St) : Bool × St := (cond, s.emit (.configASSERT cond))

/-- The function `run`.  `pdPASS` is the RTOS constant of that name.  Returns the value
of `all_created` at the assertion and the final state. -/
def run (env : Env) (pdPASS : Int) (s : St) : Bool × St :=
  let s1 := printf_blocking 100 s
  let s2 := printf_blocking 100 s1
  let s3 := initialise .spi s2
  let s4 := initialise .distance_sensors s3
  let s5 := initialise .system_monitor s4
  let s6 := initialise .odometry s5
  let s7 := initialise .motors s6
  let s8 := initialise .regulator s7
  let a0 : Bool × St := (true, s8)
  let a1 := create_task env pdPASS "SysMonitor" 4 .system_monitor_task 2 a0
  let a2 := create_task env pdPASS "Regulator" 5 .regulation_task 2 a1
  let a3 := create_task env pdPASS "Controller" 3 .controller_task 2 a2
  let a4 := create_task env pdPASS "Main" 2 .main_task 6 a3
  let all_created := a4.1
  let (go_on, s9) := configASSERT all_created a4.2
  if !go_on then (all_created, s9)
  else
    let s10 := s9.emit .xPortGetFreeHeapSize
    let s11 := printf_blocking 60 s10
    let s12 := printf_blocking 100 s11
    let s13 := s12.emit .vTaskStartScheduler
    if env.scheduler_returns then (all_created, (configASSERT false s13).2)
    else (all_created, s13)

/-! ## Properties of call sequences -/

/-- The interactive prompts of the operator input device. -/
def Call.is_prompt : Call → Bool
  | .wait_for_button_press _ _ => true
  | .select_with_wheels_int _ _ _ _ _ _ => true
  | _ => false

/-- Calls that set the robot in motion. -/
def Call.is_motion : Call → Bool
  | .go_to _ _ => true
  | .move _ => true
  | _ => false

/-- Effect of one call on the button lock under the discipline: `none` when the call
breaks it (locking a held lock, unlocking a free one, prompting without the lock). -/
def lock_step (held : Bool) (c : Call) : Option Bool :=
  match c with
  | .lock_button => if held then none else some true
  | .unlock_button => if held then some false else none
  | c => if c.is_prompt && !held then none else some held

/-- Run a step function over a call sequence, from the left. -/
def run_steps (step : Bool → Call → Option Bool) (held : Bool) (t : List Call) : Option Bool :=
  t.foldl (fun acc c => acc.bind fun h => step h c) (some held)

/-- Effect of one call on the lock, with no discipline assumed. -/
def track (held : Bool) (c : Call) : Bool :=
  match c with
  | .lock_button => true
  | .unlock_button => false
  | _ => held

/-- Whether the lock is held after the calls of `t`, starting with it free: the last
lock or unlock call decides. -/
def held_after (t : List Call) : Bool := t.foldl track false

/-- The calls made between an earlier state `s` and the state `s1`. -/
def St.calls_since (s1 s : St) : List Call := s1.trace.drop s.trace.length

/-- Lock tracking that refuses a motion call made while the lock is held. -/
def release_step (held : Bool) (c : Call) : Option Bool :=
  match c with
  | .lock_button => some true
  | .unlock_button => some false
  | c => if c.is_motion && held then none else some held

/-- The selector answers inside the range it is given, whenever that range is not empty. -/
def SelectorInRange (env : Env) : Prop :=
  ∀ (i : Nat) (dflt lo hi steps : Int) (prompt : String), lo ≤ hi →
    lo ≤ env.select_with_wheels_int i dflt (lo, hi) steps prompt ∧
    env.select_with_wheels_int i dflt (lo, hi) steps prompt ≤ hi

/-- The `xTaskCreate` calls of a sequence, in order: parameters and returned value. -/
def created_tasks : List Call → List (TaskParams × Int)
  | [] => []
  | .xTaskCreate p r :: t => (p, r) :: created_tasks t
  | _ :: t => created_tasks t

/-- The `go_to` calls of a sequence, in order: destination and returned value. -/
def go_to_calls : List Call → List (Destination × Bool)
  | [] => []
  | .go_to d r :: t => (d, r) :: go_to_calls t
  | _ :: t => go_to_calls t

/-- The selector calls of a sequence, in order: default, lower and upper end of the range. -/
def selector_calls : List Call → List (Int × Int × Int)
  | [] => []
  | .select_with_wheels_int d lo hi _ _ _ :: t => (d, lo, hi) :: selector_calls t
  | _ :: t => selector_calls t

/-! ## Concrete environments -/

/-- The four tasks of `run`, as written at lines 173-183. -/
def run_tasks : List TaskParams :=
  [⟨"SysMonitor", 4, .system_monitor_task, 2⟩, ⟨"Regulator", 5, .regulation_task, 2⟩,
    ⟨"Controller", 3, .controller_task, 2⟩, ⟨"Main", 2, .main_task, 6⟩]

/-- An operator who accepts every default (moved into the range when it is outside) and
presses at once, a maze in which every `go_to` succeeds, and an RTOS that creates every
task (returning 1). -/
def env_ok : Env where
  select_with_wheels_int := fun _ dflt range _ _ => max range.1 (min dflt range.2)
  wait_for_button_press := fun _ _ => true
  go_to := fun _ _ => true
  xTaskCreate := fun _ _ => 1
  scheduler_returns := false

/-- As `env_ok`, but every `go_to` fails and the third task cannot be created. -/
def env_fail : Env where
  select_with_wheels_int := fun _ dflt range _ _ => max range.1 (min dflt range.2)
  wait_for_button_press := fun _ _ => true
  go_to := fun _ _ => false
  xTaskCreate := fun i _ => if i = 2 then -1 else 1
  scheduler_returns := false

/-! ## General lemmas on running a step function -/

section Lemmas

theorem foldl_bind_none (step : Bool → Call → Option Bool) (t : List Call) :
    t.foldl (fun acc c => acc.bind fun h => step h c) none = none := by
  induction t with
  | nil => rfl
  | cons c t ih => simpa using ih

theorem run_steps_nil (step : Bool → Call → Option Bool) (h : Bool) :
    run_steps step h [] = some h := rfl

theorem run_steps_cons (step : Bool → Call → Option Bool) (h : Bool) (c : Call) (t : List Call) :
    run_steps step h (c :: t) = (step h c).bind fun h1 => run_steps step h1 t := by
  unfold run_steps
  simp only [List.foldl_cons, Option.some_bind]
  cases step h c with
  | none => simpa using foldl_bind_none step t
  | some h1 => rfl

theorem run_steps_append (step : Bool → Call → Option Bool) (h : Bool) (a b : List Call) :
    run_steps step h (a ++ b) = (run_steps step h a).bind fun h1 => run_steps step h1 b := by
  induction a generalizing h with
  | nil => simp [run_steps_nil]
  | cons c a ih =>
    simp only [List.cons_append, run_steps_cons]
    cases step h c with
    | none => rfl
    | some h1 => simpa using ih h1

end Lemmas

/-! ## Lock state along the traces of the three functions -/

section LockLemmas

theorem release_track (t : List Call) (h0 h : Bool)
    (hr : run_steps release_step h0 t = some h) : t.foldl track h0 = h := by
  induction t generalizing h0 with
  | nil => simpa [run_steps_nil] using hr
  | cons c t ih =>
    rw [run_steps_cons] at hr
    cases hc : release_step h0 c with
    | none => simp [hc] at hr
    | some h1 =>
      rw [hc] at hr
      have e : track h0 c = h1 := by
        cases c <;> cases h0 <;> simp_all [release_step, track, Call.is_motion]
      simpa [e] using ih h1 hr

theorem release_at_motion (pre post : List Call) (c : Call) (h : Bool)
    (hr : run_steps release_step false (pre ++ c :: post) = some h) (hc : c.is_motion = true) :
    held_after pre = false ∧ held_after (pre ++ [c]) = false := by
  rw [run_steps_append] at hr
  cases hp : run_steps release_step false pre with
  | none => simp [hp] at hr
  | some h1 =>
    have e1 : held_after pre = h1 := release_track pre false h1 hp
    rw [hp, Option.some_bind, run_steps_cons] at hr
    cases h1 with
    | true => cases c <;> simp_all [release_step, Call.is_motion]
    | false =>
      refine ⟨e1, ?_⟩
      have e2 : pre.foldl track false = false := e1
      cases c <;> simp_all [held_after, track, Call.is_motion]

theorem lock_track (t : List Call) (h0 h : Bool)
    (hr : run_steps lock_step h0 t = some h) : t.foldl track h0 = h := by
  induction t generalizing h0 with
  | nil => simpa [run_steps_nil] using hr
  | cons c t ih =>
    rw [run_steps_cons] at hr
    cases hc : lock_step h0 c with
    | none => simp [hc] at hr
    | some h1 =>
      rw [hc] at hr
      have e : track h0 c = h1 := by
        cases c <;> cases h0 <;> simp_all [lock_step, track, Call.is_prompt]
      simpa [e] using ih h1 hr

theorem lock_at_call (pre post : List Call) (c : Call) (h : Bool)
    (hr : run_steps lock_step false (pre ++ c :: post) = some h) :
    (c = .lock_button → held_after pre = false) ∧
    (c = .unlock_button → held_after pre = true) ∧
    (c.is_prompt = true → held_after pre = true) := by
  rw [run_steps_append] at hr
  cases hp : run_steps lock_step false pre with
  | none => simp [hp] at hr
  | some h1 =>
    have e1 : held_after pre = h1 := lock_track pre false h1 hp
    rw [hp, Option.some_bind, run_steps_cons] at hr
    rw [e1]
    cases h1 <;> cases c <;> simp_all [lock_step, Call.is_prompt]

theorem iteration_steps (step : Bool → Call → Option Bool)
    (hstep : step = lock_step ∨ step = release_step)
    (env : Env) (x_first : Bool) (maze_size : Int) (s : St)
    (hs : run_steps step false s.trace = some false) :
    run_steps step false (maze_solver_iteration env x_first maze_size s).2.2.trace
      = some false := by
  rcases hstep with rfl | rfl <;> cases x_first <;>
    simp only [maze_solver_iteration, select_goal, lock_button, unlock_button, update_pins, printf,
      wait_for_button_press, select_with_wheels_int, go_to, set_current_position, vTaskDelay,
      St.emit, Bool.false_eq_true, ↓reduceIte] <;>
    split <;>
    simp [run_steps_append, run_steps_cons, run_steps_nil, hs, lock_step, release_step,
      Call.is_prompt, Call.is_motion]

theorem setup_steps (step : Bool → Call → Option Bool)
    (hstep : step = lock_step ∨ step = release_step) (env : Env) (s : St)
    (hs : run_steps step false s.trace = some false) :
    run_steps step false (maze_solver_setup env s).2.2.trace = some false := by
  rcases hstep with rfl | rfl <;>
    simp [maze_solver_setup, lock_button, unlock_button, printf, select_with_wheels_int,
      vTaskDelay, St.emit, run_steps_append, run_steps_cons, run_steps_nil, hs, lock_step,
      release_step, Call.is_prompt, Call.is_motion]

theorem loop_steps (step : Bool → Call → Option Bool)
    (hstep : step = lock_step ∨ step = release_step)
    (env : Env) (order : Nat → Bool) (maze_size : Int) (n : Nat) (s : St)
    (hs : run_steps step false s.trace = some false) :
    run_steps step false (maze_solver_loop env order maze_size n s).trace = some false := by
  induction n with
  | zero => simpa [maze_solver_loop] using hs
  | succ n ih =>
    simp only [maze_solver_loop]
    exact iteration_steps step hstep env (order n) maze_size _ ih

theorem maze_solver_steps (step : Bool → Call → Option Bool)
    (hstep : step = lock_step ∨ step = release_step)
    (env : Env) (order : Nat → Bool) (n : Nat) :
    run_steps step false (maze_solver env order n St.init).trace = some false := by
  simp only [maze_solver]
  apply loop_steps step hstep
  apply setup_steps step hstep
  rcases hstep with rfl | rfl <;> rfl

theorem show_loop_steps (step : Bool → Call → Option Bool)
    (hstep : step = lock_step ∨ step = release_step)
    (env : Env) (fuel : Nat) (s : St)
    (hs : run_steps step false s.trace = some true) :
    run_steps step false (show_distance_sensors_loop env fuel s).1.trace = some true := by
  induction fuel generalizing s with
  | zero => simpa [show_distance_sensors_loop] using hs
  | succ fuel ih =>
    simp only [show_distance_sensors_loop, wait_for_button_press]
    split
    · apply ih
      rcases hstep with rfl | rfl <;>
        simp [distance_sensors_read, printf, St.emit, run_steps_append, run_steps_cons,
          run_steps_nil, hs, lock_step, release_step, Call.is_prompt, Call.is_motion]
    · rcases hstep with rfl | rfl <;>
        simp [run_steps_append, run_steps_cons, run_steps_nil, hs, lock_step, release_step,
          Call.is_prompt, Call.is_motion]

theorem show_steps (step : Bool → Call → Option Bool)
    (hstep : step = lock_step ∨ step = release_step) (env : Env) (fuel : Nat) :
    run_steps step false (show_distance_sensors_until_button env fuel St.init).1.trace
      = some (!(show_distance_sensors_until_button env fuel St.init).2) := by
  have h := show_loop_steps step hstep env fuel (lock_button St.init)
    (by rcases hstep with rfl | rfl <;> rfl)
  simp only [show_distance_sensors_until_button]
  split
  · rcases hstep with rfl | rfl <;>
      simp [unlock_button, St.emit, run_steps_append, run_steps_cons, run_steps_nil, h,
        lock_step, release_step]
  · simpa using h

theorem main_task_idle_trace (n : Nat) (s : St) :
    (main_task_idle n s).trace = s.trace ++ List.replicate n (.vTaskDelay .portMAX_DELAY) := by
  induction n with
  | zero => simp [main_task_idle]
  | succ n ih =>
    simp [main_task_idle, vTaskDelay, St.emit, ih, List.replicate_succ']

theorem main_task_trace (PI : ℚ) (env : Env) (n : Nat) (s : St) :
    (main_task PI env n s).trace = s.trace ++
      [.vTaskDelay (.ticks 300), .printf 20, .lock_button,
        .wait_for_button_press .portMAX_DELAY (env.wait_for_button_press s.n_wait .portMAX_DELAY),
        .unlock_button,
        .move (.Line (1/2) literal_0_3 literal_0_1 0), .move (.Rotate PI PI PI 0),
        .move (.Line (1/2) literal_0_3 literal_0_1 0),
        .move (.Arc (1/2) PI literal_0_3 literal_0_1 0)]
      ++ List.replicate n (.vTaskDelay .portMAX_DELAY) := by
  simp [main_task, main_task_idle_trace, vTaskDelay, printf, lock_button, unlock_button, move,
    wait_for_button_press, St.emit]

theorem replicate_delay_steps (step : Bool → Call → Option Bool)
    (hstep : step = lock_step ∨ step = release_step) (n : Nat) :
    run_steps step false (List.replicate n (.vTaskDelay .portMAX_DELAY)) = some false := by
  induction n with
  | zero => rfl
  | succ n ih =>
    rw [List.replicate_succ, run_steps_cons]
    rcases hstep with rfl | rfl <;>
      simpa [lock_step, release_step, Call.is_prompt, Call.is_motion] using ih

theorem main_task_steps (step : Bool → Call → Option Bool)
    (hstep : step = lock_step ∨ step = release_step) (PI : ℚ) (env : Env) (n : Nat) :
    run_steps step false (main_task PI env n St.init).trace = some false := by
  rw [main_task_trace, run_steps_append, run_steps_append]
  have h := replicate_delay_steps step hstep n
  rcases hstep with rfl | rfl <;>
    simp [St.init, run_steps_cons, run_steps_nil, lock_step, release_step, Call.is_prompt,
      Call.is_motion, h]

theorem show_loop_returns (env : Env) (k : Nat) (s : St)
    (hk : env.wait_for_button_press (s.n_wait + k) (.pdMS_TO_TICKS 100) = true) :
    (show_distance_sensors_loop env (k + 1) s).2 = true := by
  induction k generalizing s with
  | zero =>
    simp only [Nat.add_zero] at hk
    simp [show_distance_sensors_loop, wait_for_button_press, hk]
  | succ k ih =>
    rw [show_distance_sensors_loop]
    simp only [wait_for_button_press]
    split
    · apply ih
      simp only [printf, distance_sensors_read, St.emit]
      rw [← hk]
      congr 1
      omega
    · rfl

end LockLemmas

/-! ## The calls of one loop pass of maze_solver, and of run -/

section Shapes

theorem iteration_goal (env : Env) (x_first : Bool) (maze_size : Int) (s : St) :
    (maze_solver_iteration env x_first maze_size s).1 =
      if x_first then
        ⟨env.select_with_wheels_int s.n_select (Int.tdiv maze_size 2) (0, maze_size - 1)
            (2 * maze_size) "[maze] target.x =",
          env.select_with_wheels_int (s.n_select + 1) (Int.tdiv maze_size 2) (0, maze_size - 1)
            (2 * maze_size) "[maze] target.y ="⟩
      else
        ⟨env.select_with_wheels_int (s.n_select + 1) (Int.tdiv maze_size 2) (0, maze_size - 1)
            (2 * maze_size) "[maze] target.x =",
          env.select_with_wheels_int s.n_select (Int.tdiv maze_size 2) (0, maze_size - 1)
            (2 * maze_size) "[maze] target.y ="⟩ := by
  cases x_first <;>
    simp [maze_solver_iteration, select_goal, lock_button, update_pins, select_with_wheels_int,
      St.emit]

theorem iteration_go_to_calls (env : Env) (x_first : Bool) (maze_size : Int) (s : St) :
    go_to_calls ((maze_solver_iteration env x_first maze_size s).2.2.calls_since s) =
      (if env.go_to s.n_go_to (.target (maze_solver_iteration env x_first maze_size s).1) then
        [(.target (maze_solver_iteration env x_first maze_size s).1, true),
          (.START_POSITION, env.go_to (s.n_go_to + 1) .START_POSITION)]
      else [(.target (maze_solver_iteration env x_first maze_size s).1, false)]) := by
  cases x_first <;>
    simp only [maze_solver_iteration, select_goal, lock_button, unlock_button, update_pins, printf,
      wait_for_button_press, select_with_wheels_int, go_to, set_current_position, vTaskDelay,
      St.emit, Bool.false_eq_true, ↓reduceIte] <;>
    split <;>
    simp_all [St.calls_since, go_to_calls]

theorem iteration_success (env : Env) (x_first : Bool) (maze_size : Int) (s : St) :
    (maze_solver_iteration env x_first maze_size s).2.1 =
      (env.go_to s.n_go_to (.target (maze_solver_iteration env x_first maze_size s).1) &&
        env.go_to (s.n_go_to + 1) .START_POSITION) := by
  cases x_first <;>
    simp only [maze_solver_iteration, select_goal, lock_button, unlock_button, update_pins, printf,
      wait_for_button_press, select_with_wheels_int, go_to, set_current_position, vTaskDelay,
      St.emit, Bool.false_eq_true, ↓reduceIte] <;>
    split <;>
    simp_all

theorem iteration_selector_calls (env : Env) (x_first : Bool) (maze_size : Int) (s : St) :
    selector_calls ((maze_solver_iteration env x_first maze_size s).2.2.calls_since s) =
      [(Int.tdiv maze_size 2, 0, maze_size - 1), (Int.tdiv maze_size 2, 0, maze_size - 1)] := by
  cases x_first <;>
    simp only [maze_solver_iteration, select_goal, lock_button, unlock_button, update_pins, printf,
      wait_for_button_press, select_with_wheels_int, go_to, set_current_position, vTaskDelay,
      St.emit, Bool.false_eq_true, ↓reduceIte] <;>
    split <;>
    simp_all [St.calls_since, selector_calls]

theorem setup_selector_calls (env : Env) (s : St) :
    selector_calls ((maze_solver_setup env s).2.2.calls_since s) = [(4, 1, MAX_MAZE_SIZE)] := by
  simp [maze_solver_setup, lock_button, unlock_button, printf, select_with_wheels_int,
    vTaskDelay, St.emit, St.calls_since, selector_calls]

theorem setup_size (env : Env) (s : St) :
    (maze_solver_setup env s).1 =
      env.select_with_wheels_int s.n_select 4 (1, MAX_MAZE_SIZE) (2 * MAX_MAZE_SIZE)
        "[maze] select size =" := by
  simp [maze_solver_setup, lock_button, vTaskDelay, select_with_wheels_int, St.emit]

theorem setup_maze (env : Env) (s : St) :
    (maze_solver_setup env s).2.1 =
      ⟨(maze_solver_setup env s).1, (maze_solver_setup env s).1,
        (maze_solver_setup env s).1 * (maze_solver_setup env s).1,
        ⟨MAX_MAZE_SIZE * MAX_MAZE_SIZE⟩⟩ := by
  simp [maze_solver_setup, lock_button, vTaskDelay, select_with_wheels_int, St.emit]

theorem run_flag (env : Env) (pdPASS : Int) :
    (run env pdPASS St.init).1 =
      (decide (env.xTaskCreate 0 ⟨"SysMonitor", 4, .system_monitor_task, 2⟩ = pdPASS) &&
        decide (env.xTaskCreate 1 ⟨"Regulator", 5, .regulation_task, 2⟩ = pdPASS) &&
        decide (env.xTaskCreate 2 ⟨"Controller", 3, .controller_task, 2⟩ = pdPASS) &&
        decide (env.xTaskCreate 3 ⟨"Main", 2, .main_task, 6⟩ = pdPASS)) := by
  simp only [run, create_task, xTaskCreate, configASSERT, printf_blocking, initialise, St.emit,
    St.init]
  split
  · simp
  · split <;> simp

theorem run_created (env : Env) (pdPASS : Int) :
    created_tasks (run env pdPASS St.init).2.trace =
      [(⟨"SysMonitor", 4, .system_monitor_task, 2⟩,
          env.xTaskCreate 0 ⟨"SysMonitor", 4, .system_monitor_task, 2⟩),
        (⟨"Regulator", 5, .regulation_task, 2⟩,
          env.xTaskCreate 1 ⟨"Regulator", 5, .regulation_task, 2⟩),
        (⟨"Controller", 3, .controller_task, 2⟩,
          env.xTaskCreate 2 ⟨"Controller", 3, .controller_task, 2⟩),
        (⟨"Main", 2, .main_task, 6⟩, env.xTaskCreate 3 ⟨"Main", 2, .main_task, 6⟩)] := by
  simp only [run, create_task, xTaskCreate, configASSERT, printf_blocking, initialise, St.emit,
    St.init]
  split
  · simp [created_tasks]
  · split <;> simp [created_tasks]

theorem run_scheduler (env : Env) (pdPASS : Int) :
    (Call.vTaskStartScheduler ∈ (run env pdPASS St.init).2.trace) ↔
      (run env pdPASS St.init).1 = true := by
  simp only [run, create_task, xTaskCreate, configASSERT, printf_blocking, initialise, St.emit,
    St.init]
  split
  · simp_all
    tauto
  · split <;> simp_all

theorem run_assert (env : Env) (pdPASS : Int) :
    Call.configASSERT (run env pdPASS St.init).1 ∈ (run env pdPASS St.init).2.trace := by
  simp only [run, create_task, xTaskCreate, configASSERT, printf_blocking, initialise, St.emit,
    St.init]
  split
  · simp
  · split <;> simp

theorem selector_in_range_env_ok : SelectorInRange env_ok := by
  intro i dflt lo hi steps prompt hle
  simp only [env_ok]
  omega

end Shapes

/-! ## The claims -/

/-- C1: button lock discipline.  Take any call `c` at any place of the call sequence of
`show_distance_sensors_until_button` (for any number of polls), of `maze_solver` (for
any number of loop passes, any argument evaluation order and any values returned by the
selector, the button wait and `go_to`) or of `main_task`, with `pre` the calls before it.
If `c` is `lock_button` the lock is free after `pre`; if `c` is `unlock_button` the lock is
held after `pre`; if `c` is a prompt (`select_with_wheels_int` or `wait_for_button_press`)
the lock is held after `pre`. -/
theorem button_lock_discipline (env : Env) (order : Nat → Bool) (PI : ℚ) (fuel n : Nat)
    (pre post : List Call) (c : Call)
    (hc : (show_distance_sensors_until_button env fuel St.init).1.trace = pre ++ c :: post ∨
      (maze_solver env order n St.init).trace = pre ++ c :: post ∨
      (main_task PI env n St.init).trace = pre ++ c :: post) :
    (c = .lock_button → held_after pre = false) ∧
    (c = .unlock_button → held_after pre = true) ∧
    (c.is_prompt = true → held_after pre = true) := by
  rcases hc with hc | hc | hc
  · exact lock_at_call pre post c _ (hc ▸ show_steps lock_step (Or.inl rfl) env fuel)
  · exact lock_at_call pre post c _ (hc ▸ maze_solver_steps lock_step (Or.inl rfl) env order n)
  · exact lock_at_call pre post c _ (hc ▸ main_task_steps lock_step (Or.inl rfl) PI env n)

/-- C1 at a concrete run: in the first loop pass of `maze_solver` with `env_ok`, the
`target.x` prompt comes after `lock_button`, so the lock is held before it. -/
theorem button_lock_discipline_witness :
    held_after [.vTaskDelay (.ticks 10), .lock_button,
      .select_with_wheels_int 4 1 16 32 "[maze] select size =" 4, .printf 80, .unlock_button,
      .lock_button, .update_pins true false] = true :=
  (button_lock_discipline env_ok (fun _ => true) 3 1 1
    [.vTaskDelay (.ticks 10), .lock_button,
      .select_with_wheels_int 4 1 16 32 "[maze] select size =" 4, .printf 80, .unlock_button,
      .lock_button, .update_pins true false]
    [.select_with_wheels_int 2 0 3 8 "[maze] target.y =" 2, .printf 100,
      .update_pins false true, .wait_for_button_press .portMAX_DELAY true, .unlock_button,
      .set_current_position, .vTaskDelay (.pdMS_TO_TICKS 2000),
      .go_to (.target ⟨2, 2⟩) true, .printf 100, .printf 100, .go_to .START_POSITION true,
      .printf 100]
    (.select_with_wheels_int 2 0 3 8 "[maze] target.x =" 2)
    (Or.inr (Or.inl (by decide)))).2.2 rfl

/-- C2: release on every exit path.  In `maze_solver`, for any number of loop passes and
any results of `go_to`, the lock is free before and after every `go_to` call and at the
end of every loop pass (the start of the next one); `show_distance_sensors_until_button`
returns once a poll reports a press, and when it returns the lock is free; in `main_task`
the lock is free before and after every `move`. -/
theorem lock_released_before_motion (env : Env) (order : Nat → Bool) (PI : ℚ) (fuel n : Nat) :
    (∀ pre c post, (maze_solver env order n St.init).trace = pre ++ c :: post →
      c.is_motion = true → held_after pre = false ∧ held_after (pre ++ [c]) = false) ∧
    held_after (maze_solver env order n St.init).trace = false ∧
    ((show_distance_sensors_until_button env fuel St.init).2 = true →
      held_after (show_distance_sensors_until_button env fuel St.init).1.trace = false) ∧
    (∀ k, env.wait_for_button_press k (.pdMS_TO_TICKS 100) = true →
      (show_distance_sensors_until_button env (k + 1) St.init).2 = true) ∧
    (∀ pre c post, (main_task PI env n St.init).trace = pre ++ c :: post →
      c.is_motion = true → held_after pre = false ∧ held_after (pre ++ [c]) = false) := by
  refine ⟨?_, ?_, ?_, ?_, ?_⟩
  · intro pre c post ht hc
    exact release_at_motion pre post c _
      (ht ▸ maze_solver_steps release_step (Or.inr rfl) env order n) hc
  · exact release_track _ false false (maze_solver_steps release_step (Or.inr rfl) env order n)
  · intro hret
    have h := show_steps release_step (Or.inr rfl) env fuel
    rw [hret] at h
    exact release_track _ false false h
  · intro k hk
    have h := show_loop_returns env k (lock_button St.init)
      (by simpa [lock_button, St.emit, St.init] using hk)
    simp only [show_distance_sensors_until_button]
    split <;> simp_all
  · intro pre c post ht hc
    exact release_at_motion pre post c _
      (ht ▸ main_task_steps release_step (Or.inr rfl) PI env n) hc

/-- C2 at a concrete run: with `env_fail` the first `go_to` fails, and the lock is free
before that call and after it. -/
theorem lock_released_before_motion_witness :
    held_after [.vTaskDelay (.ticks 10), .lock_button,
      .select_with_wheels_int 4 1 16 32 "[maze] select size =" 4, .printf 80, .unlock_button,
      .lock_button, .update_pins true false,
      .select_with_wheels_int 2 0 3 8 "[maze] target.x =" 2,
      .select_with_wheels_int 2 0 3 8 "[maze] target.y =" 2, .printf 100,
      .update_pins false true, .wait_for_button_press .portMAX_DELAY true, .unlock_button,
      .set_current_position, .vTaskDelay (.pdMS_TO_TICKS 2000)] = false ∧
    held_after ([.vTaskDelay (.ticks 10), .lock_button,
      .select_with_wheels_int 4 1 16 32 "[maze] select size =" 4, .printf 80, .unlock_button,
      .lock_button, .update_pins true false,
      .select_with_wheels_int 2 0 3 8 "[maze] target.x =" 2,
      .select_with_wheels_int 2 0 3 8 "[maze] target.y =" 2, .printf 100,
      .update_pins false true, .wait_for_button_press .portMAX_DELAY true, .unlock_button,
      .set_current_position, .vTaskDelay (.pdMS_TO_TICKS 2000)]
      ++ [.go_to (.target ⟨2, 2⟩) false]) = false :=
  (lock_released_before_motion env_fail (fun _ => true) 3 1 1).1 _
    (.go_to (.target ⟨2, 2⟩) false) [.printf 100, .printf 100, .printf 100] (by decide) rfl

/-- C3: task priority order.  The tasks `run` creates are, for any results of the
creations, the four of `run_tasks`, named SysMonitor, Regulator, Controller and Main;
every task with another name has a priority strictly below that of the Regulator task,
and Regulator > Controller > Main, a larger number being a higher priority. -/
theorem regulator_priority_highest (env : Env) (pdPASS : Int) :
    (created_tasks (run env pdPASS St.init).2.trace).map Prod.fst = run_tasks ∧
    (run_tasks.map fun t => (t.name, t.func)) =
      [("SysMonitor", .system_monitor_task), ("Regulator", .regulation_task),
        ("Controller", .controller_task), ("Main", .main_task)] ∧
    (∀ reg ∈ run_tasks, ∀ t ∈ run_tasks, reg.name = "Regulator" → t.name ≠ "Regulator" →
      t.priority < reg.priority) ∧
    (∀ reg ∈ run_tasks, ∀ ctl ∈ run_tasks, ∀ mn ∈ run_tasks, reg.name = "Regulator" →
      ctl.name = "Controller" → mn.name = "Main" →
      mn.priority < ctl.priority ∧ ctl.priority < reg.priority) := by
  refine ⟨?_, by decide, by decide, by decide⟩
  rw [run_created]
  rfl

/-- C4: task-creation failure is fail-fast.  Whatever the creations return, `run` makes
the four `xTaskCreate` calls of `run_tasks`; the flag passed to `configASSERT` is true
exactly when every one of them returned `pdPASS`; and `vTaskStartScheduler` is called
exactly when that flag is true, hence only when all four tasks were created. -/
theorem task_creation_fail_fast (env : Env) (pdPASS : Int) :
    (created_tasks (run env pdPASS St.init).2.trace).map Prod.fst = run_tasks ∧
    Call.configASSERT (run env pdPASS St.init).1 ∈ (run env pdPASS St.init).2.trace ∧
    ((run env pdPASS St.init).1 = true ↔
      ∀ pr ∈ created_tasks (run env pdPASS St.init).2.trace, pr.2 = pdPASS) ∧
    (Call.vTaskStartScheduler ∈ (run env pdPASS St.init).2.trace ↔
      ∀ pr ∈ created_tasks (run env pdPASS St.init).2.trace, pr.2 = pdPASS) := by
  have hflag : (run env pdPASS St.init).1 = true ↔
      ∀ pr ∈ created_tasks (run env pdPASS St.init).2.trace, pr.2 = pdPASS := by
    rw [run_flag, run_created]
    simp
    tauto
  refine ⟨?_, run_assert env pdPASS, hflag, ?_⟩
  · rw [run_created]
    rfl
  · rw [run_scheduler]
    exact hflag

/-- C4 at a concrete run: with `env_fail` the third creation fails; the fourth task is
still created, the flag is false and the scheduler is not started. -/
theorem task_creation_fail_fast_witness :
    (created_tasks (run env_fail 1 St.init).2.trace).map Prod.snd = [1, 1, -1, 1] ∧
    (run env_fail 1 St.init).1 = false ∧
    Call.vTaskStartScheduler ∉ (run env_fail 1 St.init).2.trace := by
  have h := task_creation_fail_fast env_fail 1
  refine ⟨by decide, by decide, ?_⟩
  rw [h.2.2.2]
  decide

/-- C5, as stated, fails: with `env_ok` the operator selects size 4, the cell count is 16
and the capacity of `maze_stack` is 256. -/
theorem stack_capacity_not_size_squared :
    SelectorInRange env_ok ∧ (maze_solver_setup env_ok St.init).1 = 4 ∧
    (maze_solver_setup env_ok St.init).2.1.stack.capacity = 256 ∧
    (maze_solver_setup env_ok St.init).2.1.stack.capacity ≠
      (maze_solver_setup env_ok St.init).1 * (maze_solver_setup env_ok St.init).1 :=
  ⟨selector_in_range_env_ok, by decide, by decide, by decide⟩

/-- C5, amended: for every maze size the operator can select, the capacity of
`maze_stack` is `MAX_MAZE_SIZE * MAX_MAZE_SIZE = 256`, which is at least
`maze_size * maze_size` and equal to it exactly when `maze_size = MAX_MAZE_SIZE`. -/
theorem stack_capacity_is_max_squared (env : Env) (hsel : SelectorInRange env) (s : St) :
    (maze_solver_setup env s).2.1.stack.capacity = MAX_MAZE_SIZE * MAX_MAZE_SIZE ∧
    (maze_solver_setup env s).2.1.stack.capacity = 256 ∧
    (maze_solver_setup env s).1 * (maze_solver_setup env s).1 ≤
      (maze_solver_setup env s).2.1.stack.capacity ∧
    ((maze_solver_setup env s).2.1.stack.capacity =
        (maze_solver_setup env s).1 * (maze_solver_setup env s).1 ↔
      (maze_solver_setup env s).1 = MAX_MAZE_SIZE) := by
  have hr := hsel s.n_select 4 1 MAX_MAZE_SIZE (2 * MAX_MAZE_SIZE) "[maze] select size ="
    (by decide)
  rw [← setup_size] at hr
  rw [setup_maze]
  obtain ⟨h1, h2⟩ := hr
  simp only [MAX_MAZE_SIZE] at h2
  refine ⟨rfl, by simp [MAX_MAZE_SIZE], by simp only [MAX_MAZE_SIZE]; nlinarith, ?_⟩
  simp only [MAX_MAZE_SIZE]
  constructor
  · intro h
    nlinarith
  · intro h
    rw [h]

/-- C5 amended, at a concrete run: with `env_ok` the capacity is 256 and the 16 cells fit. -/
theorem stack_capacity_is_max_squared_witness :
    (maze_solver_setup env_ok St.init).2.1.stack.capacity = 256 ∧
    (maze_solver_setup env_ok St.init).1 * (maze_solver_setup env_ok St.init).1 ≤
      (maze_solver_setup env_ok St.init).2.1.stack.capacity :=
  ⟨(stack_capacity_is_max_squared env_ok selector_in_range_env_ok St.init).2.1,
    (stack_capacity_is_max_squared env_ok selector_in_range_env_ok St.init).2.2.1⟩

/-- C6: maze size is bounded by the compile-time maximum.  When the selector answers
inside the range it is given, the `maze_size` of `maze_solver` satisfies
`1 ≤ maze_size ≤ MAX_MAZE_SIZE = 16`, the Maze is built with both dimensions equal to
`maze_size`, and the number of cells `maze_size * maze_size` is at least 1 and at most
the worklist capacity `MAX_MAZE_SIZE * MAX_MAZE_SIZE = 256`. -/
theorem maze_size_bounded (env : Env) (hsel : SelectorInRange env) (s : St) :
    1 ≤ (maze_solver_setup env s).1 ∧ (maze_solver_setup env s).1 ≤ MAX_MAZE_SIZE ∧
    MAX_MAZE_SIZE = 16 ∧
    (maze_solver_setup env s).2.1.n_x = (maze_solver_setup env s).1 ∧
    (maze_solver_setup env s).2.1.n_y = (maze_solver_setup env s).1 ∧
    (maze_solver_setup env s).2.1.n_cells =
      (maze_solver_setup env s).1 * (maze_solver_setup env s).1 ∧
    1 ≤ (maze_solver_setup env s).2.1.n_cells ∧
    (maze_solver_setup env s).2.1.n_cells ≤ (maze_solver_setup env s).2.1.stack.capacity ∧
    (maze_solver_setup env s).2.1.stack.capacity = MAX_MAZE_SIZE * MAX_MAZE_SIZE ∧
    MAX_MAZE_SIZE * MAX_MAZE_SIZE = 256 := by
  have hr := hsel s.n_select 4 1 MAX_MAZE_SIZE (2 * MAX_MAZE_SIZE) "[maze] select size ="
    (by decide)
  rw [← setup_size] at hr
  obtain ⟨h1, h2⟩ := hr
  rw [setup_maze]
  have h3 : (maze_solver_setup env s).1 ≤ 16 := h2
  refine ⟨h1, h2, rfl, rfl, rfl, rfl, ?_, ?_, rfl, by decide⟩
  · show 1 ≤ (maze_solver_setup env s).1 * (maze_solver_setup env s).1
    nlinarith
  · show (maze_solver_setup env s).1 * (maze_solver_setup env s).1 ≤ 16 * 16
    nlinarith

/-- C6 at a concrete run: with `env_ok` the size is 4 and the Maze has 16 cells. -/
theorem maze_size_bounded_witness :
    SelectorInRange env_ok ∧ (maze_solver_setup env_ok St.init).1 = 4 ∧
    1 ≤ (maze_solver_setup env_ok St.init).1 ∧
    (maze_solver_setup env_ok St.init).2.1.n_cells ≤
      (maze_solver_setup env_ok St.init).2.1.stack.capacity :=
  ⟨selector_in_range_env_ok, by decide,
    (maze_size_bounded env_ok selector_in_range_env_ok St.init).1,
    (maze_size_bounded env_ok selector_in_range_env_ok St.init).2.2.2.2.2.2.2.1⟩

/-- C7: every operator-selected target satisfies the Position invariant.  When the
selector answers inside the range it is given and `1 ≤ maze_size ≤ 16`, then for either
evaluation order of the two prompts the first `go_to` of the loop pass is called with
`goal_pos`, and every target passed to `go_to` in the pass has both coordinates in
`0 .. maze_size - 1`. -/
theorem goal_satisfies_position_invariant (env : Env) (hsel : SelectorInRange env)
    (maze_size : Int) (h1 : 1 ≤ maze_size) (_h16 : maze_size ≤ MAX_MAZE_SIZE)
    (x_first : Bool) (s : St) :
    (go_to_calls ((maze_solver_iteration env x_first maze_size s).2.2.calls_since s)).head? =
      some (.target (maze_solver_iteration env x_first maze_size s).1,
        env.go_to s.n_go_to (.target (maze_solver_iteration env x_first maze_size s).1)) ∧
    ∀ g ret, (Destination.target g, ret) ∈
        go_to_calls ((maze_solver_iteration env x_first maze_size s).2.2.calls_since s) →
      0 ≤ g.x ∧ g.x < maze_size ∧ 0 ≤ g.y ∧ g.y < maze_size := by
  have hgoal : 0 ≤ (maze_solver_iteration env x_first maze_size s).1.x ∧
      (maze_solver_iteration env x_first maze_size s).1.x < maze_size ∧
      0 ≤ (maze_solver_iteration env x_first maze_size s).1.y ∧
      (maze_solver_iteration env x_first maze_size s).1.y < maze_size := by
    rw [iteration_goal]
    have ha := hsel s.n_select (Int.tdiv maze_size 2) 0 (maze_size - 1) (2 * maze_size)
    have hb := hsel (s.n_select + 1) (Int.tdiv maze_size 2) 0 (maze_size - 1) (2 * maze_size)
    have hax := ha "[maze] target.x =" (by omega)
    have hay := ha "[maze] target.y =" (by omega)
    have hbx := hb "[maze] target.x =" (by omega)
    have hby := hb "[maze] target.y =" (by omega)
    cases x_first
    · simp only [Bool.false_eq_true, ↓reduceIte]
      omega
    · simp only [↓reduceIte]
      omega
  rw [iteration_go_to_calls]
  constructor
  · split <;> simp_all
  · intro g ret hmem
    split at hmem
    · simp only [List.mem_cons, Prod.mk.injEq, Destination.target.injEq, List.mem_singleton,
        List.not_mem_nil, or_false, false_and, reduceCtorEq] at hmem
      obtain ⟨hg, -⟩ := hmem
      rw [hg]
      exact hgoal
    · simp only [List.mem_singleton, Prod.mk.injEq, Destination.target.injEq] at hmem
      obtain ⟨hg, -⟩ := hmem
      rw [hg]
      exact hgoal

/-- C7 at a concrete run: in a 4 x 4 maze with `env_ok`, prompting for y first, the
target passed to `go_to` is (2, 2). -/
theorem goal_satisfies_position_invariant_witness :
    (Destination.target ⟨2, 2⟩, true) ∈
      go_to_calls ((maze_solver_iteration env_ok false 4 St.init).2.2.calls_since St.init) ∧
    (0 : Int) ≤ 2 ∧ (2 : Int) < 4 :=
  ⟨by decide,
    ((goal_satisfies_position_invariant env_ok selector_in_range_env_ok 4 (by decide)
      (by decide) false St.init).2 ⟨2, 2⟩ true (by decide)).1,
    ((goal_satisfies_position_invariant env_ok selector_in_range_env_ok 4 (by decide)
      (by decide) false St.init).2 ⟨2, 2⟩ true (by decide)).2.1⟩

/-- C9: in every pass of the `maze_solver` loop the `go_to` calls are `go_to(goal_pos)`
followed, exactly when it returned success, by `go_to(START_POSITION)`; after a failed
`go_to(goal_pos)` there is no further `go_to` in the pass; and the final `success` is
true exactly when both calls were made and both returned success. -/
theorem return_trip_iff_goal_reached (env : Env) (x_first : Bool) (maze_size : Int) (s : St) :
    go_to_calls ((maze_solver_iteration env x_first maze_size s).2.2.calls_since s) =
      (.target (maze_solver_iteration env x_first maze_size s).1,
          env.go_to s.n_go_to (.target (maze_solver_iteration env x_first maze_size s).1)) ::
        (if env.go_to s.n_go_to (.target (maze_solver_iteration env x_first maze_size s).1)
          then [(.START_POSITION, env.go_to (s.n_go_to + 1) .START_POSITION)] else []) ∧
    ((∃ ret, (Destination.START_POSITION, ret) ∈
        go_to_calls ((maze_solver_iteration env x_first maze_size s).2.2.calls_since s)) ↔
      env.go_to s.n_go_to (.target (maze_solver_iteration env x_first maze_size s).1) = true) ∧
    (env.go_to s.n_go_to (.target (maze_solver_iteration env x_first maze_size s).1) = false →
      go_to_calls ((maze_solver_iteration env x_first maze_size s).2.2.calls_since s) =
        [(.target (maze_solver_iteration env x_first maze_size s).1, false)]) ∧
    ((maze_solver_iteration env x_first maze_size s).2.1 = true ↔
      go_to_calls ((maze_solver_iteration env x_first maze_size s).2.2.calls_since s) =
        [(.target (maze_solver_iteration env x_first maze_size s).1, true),
          (.START_POSITION, true)]) := by
  rw [iteration_go_to_calls, iteration_success]
  cases env.go_to s.n_go_to (.target (maze_solver_iteration env x_first maze_size s).1) <;>
    cases env.go_to (s.n_go_to + 1) .START_POSITION <;> simp

/-- C10: every default passed to the selector lies inside the range passed with it.  The
only selector call before the loop has default 4 and range [1, MAX_MAZE_SIZE] = [1, 16];
for `1 ≤ maze_size ≤ 16` the two selector calls of a loop pass have default
`maze_size / 2` (truncating division) and range [0, maze_size - 1]; in every one of these
calls the default lies inside the range. -/
theorem selector_defaults_within_range (env : Env) (x_first : Bool) (maze_size : Int)
    (s : St) (h1 : 1 ≤ maze_size) (h16 : maze_size ≤ MAX_MAZE_SIZE) :
    selector_calls ((maze_solver_setup env s).2.2.calls_since s) = [(4, 1, 16)] ∧
    (∀ c ∈ selector_calls ((maze_solver_setup env s).2.2.calls_since s),
      c.2.1 ≤ c.1 ∧ c.1 ≤ c.2.2) ∧
    selector_calls ((maze_solver_iteration env x_first maze_size s).2.2.calls_since s) =
      [(Int.tdiv maze_size 2, 0, maze_size - 1), (Int.tdiv maze_size 2, 0, maze_size - 1)] ∧
    (∀ c ∈ selector_calls ((maze_solver_iteration env x_first maze_size s).2.2.calls_since s),
      c.2.1 ≤ c.1 ∧ c.1 ≤ c.2.2) := by
  have hdiv := Int.tdiv_eq_ediv (a := maze_size) (b := 2) (by omega)
  simp only [MAX_MAZE_SIZE] at h16
  rw [setup_selector_calls, iteration_selector_calls]
  refine ⟨rfl, by decide, rfl, ?_⟩
  intro c hc
  simp only [List.mem_cons, List.mem_singleton, List.not_mem_nil, or_false, or_self] at hc
  subst hc
  simp only
  omega

/-- C10 at the smallest maze: for `maze_size = 1` default and range are all 0. -/
theorem selector_defaults_within_range_witness :
    selector_calls ((maze_solver_iteration env_ok true 1 St.init).2.2.calls_since St.init) =
      [(0, 0, 0), (0, 0, 0)] :=
  (selector_defaults_within_range env_ok true 1 St.init (by decide) (by decide)).2.2.1

end Ubik
